import Mathlib

/-!
# Build query registry of `database/dml/sqlite/build.go`

The Go file is a block of SQL string constants and one constructor,
`createBuildService`, that files them in two string-keyed maps and one
string field.  This development embeds

* the constants, character for character;
* the registry built by `createBuildService`, with Go's map indexing;
* a lexer and a parser for the SQL fragment the constants are written in,
  so that every statement about a template's clauses is computed from the
  template text itself;
* an evaluator of the parsed statements over a `builds` and a `repos` table.
-/

namespace Sqlite

/-! ## The constants of `build.go` -/

/-- ListBuilds: list all builds in the database. -/
def ListBuilds : String := "\nSELECT *\nFROM builds;\n"

/-- ListRepoBuilds: list all builds for a repo_id in the database. -/
def ListRepoBuilds : String :=
  "\nSELECT *\nFROM builds\nWHERE repo_id = ?\nORDER BY id DESC\nLIMIT ?\nOFFSET ?;\n"

/-- ListRepoBuildsByEvent: builds for a repo_id with a specific event type. -/
def ListRepoBuildsByEvent : String :=
  "\nSELECT *\nFROM builds\nWHERE repo_id = ?\nAND event = ?\nORDER BY number DESC\nLIMIT ?\nOFFSET ?;\n"

/-- SelectRepoBuild: select a build for a repo_id in the database. -/
def SelectRepoBuild : String :=
  "\nSELECT *\nFROM builds\nWHERE repo_id = ?\nAND number = ?\nLIMIT 1;\n"

/-- SelectLastRepoBuild: select the last build for a repo_id in the database. -/
def SelectLastRepoBuild : String :=
  "\nSELECT *\nFROM builds\nWHERE repo_id = ?\nORDER BY number DESC\nLIMIT 1;\n"

/-- SelectLastRepoBuildByBranch: select the last build for a repo_id and branch name. -/
def SelectLastRepoBuildByBranch : String :=
  "\nSELECT *\nFROM builds\nWHERE repo_id = ?\nAND branch = ?\nORDER BY number DESC\nLIMIT 1;\n"

/-- ListOrgBuilds: joined query between the builds and repos table for an org name.
The Go raw string closes after a newline and two tabs. -/
def ListOrgBuilds : String :=
  "\nSELECT builds.*\nFROM builds JOIN repos\nON repos.id=builds.repo_id\nWHERE repos.org = $1\nORDER BY id DESC\nLIMIT $2\nOFFSET $3;\n\t\t"

/-- ListOrgBuildsByEvent: joined query for an org with a specific event type. -/
def ListOrgBuildsByEvent : String :=
  "\nSELECT builds.*\nFROM builds JOIN repos\nON repos.id=builds.repo_id\nWHERE repos.org = $1\nAND builds.event = $2\nORDER BY id DESC\nLIMIT $3\nOFFSET $4;\n"

/-- SelectBuildsCount: select the count of builds in the database. -/
def SelectBuildsCount : String := "\nSELECT count(*) as count\nFROM builds;\n"

/-- SelectOrgBuildCount: joined query for the count of builds for an org name. -/
def SelectOrgBuildCount : String :=
  "\nSELECT count(*) as count\nFROM builds JOIN repos\nON repos.id = builds.repo_id\nWHERE repos.org = $1;\n"

/-- SelectOrgBuildCountByEvent: joined query for the count of builds by org name and event type. -/
def SelectOrgBuildCountByEvent : String :=
  "\nSELECT count(*) as count\nFROM builds JOIN repos\nON repos.id = builds.repo_id\nWHERE repos.org = $1\nAND event = $2;\n"

/-- SelectRepoBuildCount: select the count of builds for a repo_id. -/
def SelectRepoBuildCount : String :=
  "\nSELECT count(*) as count\nFROM builds\nWHERE repo_id = ?;\n"

/-- SelectRepoBuildCountByEvent: select the count of builds by repo and event type. -/
def SelectRepoBuildCountByEvent : String :=
  "\nSELECT count(*) as count\nFROM builds\nWHERE repo_id = ?\nAND event = ?;\n"

/-- SelectBuildsCountByStatus: select the count of builds for a status. -/
def SelectBuildsCountByStatus : String :=
  "\nSELECT count(*) as count\nFROM builds\nWHERE status = ?;\n"

/-- DeleteBuild: remove a build from the database. -/
def DeleteBuild : String := "\nDELETE\nFROM builds\nWHERE id = ?;\n"

/-- SelectPendingAndRunningBuilds: joined query between the builds and repos table to
select the created builds that are in pending or running builds status since the
specified timeframe. -/
def SelectPendingAndRunningBuilds : String :=
  "\nSELECT builds.created, builds.number, builds.status, repos.full_name\nFROM builds INNER JOIN repos ON (builds.repo_id = repos.id)\nWHERE builds.created > $1\nAND builds.status = 'running' or builds.status = 'pending';\n"

/-! ## The registry -/

/-- A Go `map[string]string` written as a composite literal: the key/value pairs in
the order of the literal (Go rejects a literal with a repeated constant key). -/
abbrev GoMap := List (String × String)

/-- Entry of a map for a key, when present. -/
def GoMap.find (m : GoMap) (k : String) : Option String :=
  match m with
  | [] => none
  | (k', v) :: rest => if k' = k then some v else GoMap.find rest k

/-- Go's two-result index expression `v, ok := m[k]`: a missing key gives the zero
value of the element type, the empty string, and `ok = false`. -/
def GoMap.index2 (m : GoMap) (k : String) : String × Bool :=
  match m.find k with
  | some v => (v, true)
  | none => ("", false)

/-- Go's index expression `m[k]`. -/
def GoMap.index (m : GoMap) (k : String) : String := (m.index2 k).1

/-- Modelled from the spec: the `Service` struct type is declared outside `build.go`;
its three fields are the ones the composite literal in `createBuildService` sets, the
operation classes List, Select and Delete of the registry. -/
structure Service where
  List : GoMap
  Select : GoMap
  Delete : String

/-- createBuildService: the service for interacting with the builds table. -/
def createBuildService : Service :=
  { List := [
      ("all", ListBuilds),
      ("repo", ListRepoBuilds),
      ("repoByEvent", ListRepoBuildsByEvent),
      ("org", ListOrgBuilds),
      ("orgByEvent", ListOrgBuildsByEvent)],
    Select := [
      ("repo", SelectRepoBuild),
      ("last", SelectLastRepoBuild),
      ("lastByBranch", SelectLastRepoBuildByBranch),
      ("count", SelectBuildsCount),
      ("countByStatus", SelectBuildsCountByStatus),
      ("countByRepo", SelectRepoBuildCount),
      ("countByRepoAndEvent", SelectRepoBuildCountByEvent),
      ("countByOrg", SelectOrgBuildCount),
      ("countByOrgAndEvent", SelectOrgBuildCountByEvent),
      ("pendingAndRunning", SelectPendingAndRunningBuilds)],
    Delete := DeleteBuild }

/-! ## Lexer -/

/-- Lexical tokens of the SQL fragment used by the templates. -/
inductive Token where
  /-- identifier or keyword, as written -/
  | word (s : String)
  /-- unsigned integer literal -/
  | num (n : Nat)
  /-- single-quoted text literal -/
  | lit (s : String)
  /-- the k-th `?` of the statement, counted from 1 -/
  | qmark (k : Nat)
  /-- ordinal placeholder `$n` -/
  | ordinal (n : Nat)
  /-- any other character -/
  | sym (c : Char)
  deriving DecidableEq, Repr

/-- What the lexer is in the middle of. -/
inductive LexState where
  | idle
  | inWord (acc : List Char)
  | inNum (n : Nat)
  | afterDollar
  | inOrdinal (n : Nat)
  | inLit (acc : List Char)
  deriving DecidableEq, Repr

def quoteChar : Char := Char.ofNat 39

def isWordChar (c : Char) : Bool := c.isAlphanum || c == '_'

def digitVal (c : Char) : Nat := c.toNat - 48

/-- Token closed by the end of the current lexeme. -/
def flush : LexState → List Token
  | .idle => []
  | .inWord acc => [.word (String.mk acc.reverse)]
  | .inNum n => [.num n]
  | .afterDollar => [.sym '$']
  | .inOrdinal n => [.ordinal n]
  | .inLit acc => [.lit (String.mk acc.reverse)]

/-- Lexer: `st` is the lexeme in progress, `k` the number of `?` seen so far. -/
def lexFrom : LexState → Nat → List Char → List Token
  | st, _, [] => flush st
  | .inLit acc, k, c :: cs =>
    if c = quoteChar then .lit (String.mk acc.reverse) :: lexFrom .idle k cs
    else lexFrom (.inLit (c :: acc)) k cs
  | st, k, c :: cs =>
    let continued : Option LexState :=
      match st with
      | .inWord acc => if isWordChar c then some (.inWord (c :: acc)) else none
      | .inNum n => if c.isDigit then some (.inNum (10 * n + digitVal c)) else none
      | .afterDollar => if c.isDigit then some (.inOrdinal (digitVal c)) else none
      | .inOrdinal n => if c.isDigit then some (.inOrdinal (10 * n + digitVal c)) else none
      | _ => none
    match continued with
    | some st' => lexFrom st' k cs
    | none =>
      flush st ++
        (if c.isWhitespace then lexFrom .idle k cs
         else if c.isDigit then lexFrom (.inNum (digitVal c)) k cs
         else if isWordChar c then lexFrom (.inWord [c]) k cs
         else if c = '$' then lexFrom .afterDollar k cs
         else if c = quoteChar then lexFrom (.inLit []) k cs
         else if c = '?' then .qmark (k + 1) :: lexFrom .idle (k + 1) cs
         else .sym c :: lexFrom .idle k cs)

/-- Tokens of a template. -/
def lex (tpl : String) : List Token := lexFrom .idle 0 tpl.data

/-! ## Abstract syntax -/

/-- Column reference, qualified by a table name or not. -/
structure Col where
  tbl : Option String
  name : String
  deriving DecidableEq, Repr

/-- Right-hand side of a comparison, and argument of LIMIT and OFFSET. -/
inductive Operand where
  /-- bound parameter number `i`, counted from 1 -/
  | param (i : Nat)
  | text (s : String)
  | int (n : Int)
  | col (c : Col)
  deriving DecidableEq, Repr

inductive CmpOp where
  | eq
  | gt
  deriving DecidableEq, Repr

/-- One comparison `lhs op rhs`. -/
structure Atom where
  lhs : Col
  op : CmpOp
  rhs : Operand
  deriving DecidableEq, Repr

/-- A WHERE condition without parentheses: AND binds tighter than OR, so the condition
is a disjunction (outer list) of conjunctions (inner lists) of comparisons. -/
abbrev Cond := List (List Atom)

/-- Select list. -/
inductive Sel where
  | star
  | tblStar (t : String)
  | countStar (outName : String)
  | cols (cs : List Col)
  deriving DecidableEq, Repr

/-- FROM clause: one table, or an inner join of two tables on an equality of columns. -/
inductive From where
  | table (t : String)
  | join (l r : String) (onL onR : Col)
  deriving DecidableEq, Repr

inductive Dir where
  | asc
  | desc
  deriving DecidableEq, Repr

/-- A SELECT statement. -/
structure Select where
  sel : Sel
  frm : From
  wher : Option Cond
  orderBy : Option (Col × Dir)
  limit : Option Operand
  offset : Option Operand
  deriving DecidableEq, Repr

inductive Stmt where
  | select (q : Select)
  | delete (t : String) (wher : Option Cond)
  deriving DecidableEq, Repr

/-! ## Parser -/

/-- Keywords are matched without regard to case. -/
def isKw (k : String) (t : Token) : Bool :=
  match t with
  | .word s => s.data.map Char.toUpper == k.data
  | _ => false

def isAnyKw (ks : List String) (t : Token) : Bool := ks.any (fun k => isKw k t)

/-- Split a token list at every occurrence of keyword `k`. -/
def splitAtKw (k : String) : List Token → List (List Token)
  | [] => [[]]
  | t :: ts =>
    if isKw k t then [] :: splitAtKw k ts
    else
      match splitAtKw k ts with
      | [] => [[t]]
      | g :: gs => (t :: g) :: gs

/-- Split a token list at every occurrence of the symbol `c`. -/
def splitAtSym (c : Char) : List Token → List (List Token)
  | [] => [[]]
  | t :: ts =>
    if t = .sym c then [] :: splitAtSym c ts
    else
      match splitAtSym c ts with
      | [] => [[t]]
      | g :: gs => (t :: g) :: gs

/-- Tokens before the first of the keywords `ks`, and the rest from that keyword on. -/
def breakAt (ks : List String) (ts : List Token) : List Token × List Token :=
  ts.span (fun t => !isAnyKw ks t)

/-- Apply a parser to every element; fails when one of them fails. -/
def parseAll {α β : Type} (f : α → Option β) : List α → Option (List β)
  | [] => some []
  | a :: as =>
    match f a, parseAll f as with
    | some b, some bs => some (b :: bs)
    | _, _ => none

def parseCol : List Token → Option Col
  | [.word c] => some ⟨none, c⟩
  | [.word t, .sym '.', .word c] => some ⟨some t, c⟩
  | _ => none

def parseOperand : List Token → Option Operand
  | [.qmark k] => some (.param k)
  | [.ordinal n] => some (.param n)
  | [.lit s] => some (.text s)
  | [.num n] => some (.int n)
  | ts => (parseCol ts).map .col

def parseOp : Token → Option CmpOp
  | .sym '=' => some .eq
  | .sym '>' => some .gt
  | _ => none

/-- One comparison: the tokens up to the operator are the column, those after it the
operand. -/
def parseAtom (ts : List Token) : Option Atom :=
  match ts.span (fun t => (parseOp t).isNone) with
  | (l, o :: r) =>
    match parseCol l, parseOp o, parseOperand r with
    | some c, some op, some v => some ⟨c, op, v⟩
    | _, _, _ => none
  | _ => none

/-- A condition is split at OR first and each part at AND: AND binds tighter. -/
def parseCond (ts : List Token) : Option Cond :=
  parseAll (fun g => parseAll parseAtom (splitAtKw "AND" g)) (splitAtKw "OR" ts)

def parseSel : List Token → Option Sel
  | [.sym '*'] => some .star
  | [.word t, .sym '.', .sym '*'] => some (.tblStar t)
  | [f, .sym '(', .sym '*', .sym ')', a, .word outName] =>
    if isKw "COUNT" f && isKw "AS" a then some (.countStar outName) else none
  | ts => (parseAll parseCol (splitAtSym ',' ts)).map .cols

/-- The ON condition of a join, in parentheses or not. -/
def parseOn (ts : List Token) : Option (Col × Col) :=
  let body :=
    match ts with
    | .sym '(' :: rest => if rest.getLast? = some (.sym ')') then rest.dropLast else ts
    | _ => ts
  match splitAtSym '=' body with
  | [l, r] =>
    match parseCol l, parseCol r with
    | some a, some b => some (a, b)
    | _, _ => none
  | _ => none

def parseFrom : List Token → Option From
  | [.word t] => some (.table t)
  | .word l :: j :: .word r :: o :: rest =>
    if isKw "JOIN" j && isKw "ON" o then (parseOn rest).map (fun p => .join l r p.1 p.2)
    else none
  | _ => none

/-- The keyword pair `INNER JOIN` is read as `JOIN`. -/
def dropInner (ts : List Token) : List Token :=
  match ts with
  | t :: i :: j :: rest => if isKw "INNER" i && isKw "JOIN" j then t :: j :: rest else ts
  | _ => ts

def parseOrder : List Token → Option (Col × Dir)
  | [] => none
  | ts =>
    match ts.getLast? with
    | some d =>
      if isKw "DESC" d then (parseCol ts.dropLast).map (fun c => (c, .desc))
      else if isKw "ASC" d then (parseCol ts.dropLast).map (fun c => (c, .asc))
      else (parseCol ts).map (fun c => (c, .asc))
    | none => none

/-- An optional clause introduced by keyword `k` and ending before the first of the
keywords `ends`: the clause, when there (`some none` when absent), and the remaining
tokens; `none` when the clause does not parse. -/
def optClause {α : Type} (k : String) (ends : List String) (p : List Token → Option α)
    (ts : List Token) : Option (Option α × List Token) :=
  match ts with
  | t :: rest =>
    if isKw k t then
      match p (breakAt ends rest).1 with
      | some a => some (some a, (breakAt ends rest).2)
      | none => none
    else some (none, ts)
  | [] => some (none, [])

/-- The keywords that end a clause of the fragment. -/
def clauseKws : List String := ["FROM", "WHERE", "GROUP", "HAVING", "ORDER", "LIMIT", "OFFSET"]

/-- ORDER BY clause body: the tokens after ORDER start with BY. -/
def parseOrderBy : List Token → Option (Col × Dir)
  | b :: rest => if isKw "BY" b then parseOrder rest else none
  | [] => none

/-- The clauses after the select list, in their fixed order; any token left over
(a GROUP BY, a second statement) makes the parse fail. -/
def parseSelectBody (ts : List Token) : Option Select := do
  let (selT, r0) := breakAt clauseKws ts
  let sel ← parseSel selT
  let (frm?, r1) ← optClause "FROM" clauseKws (fun x => parseFrom (dropInner x)) r0
  let frm ← frm?
  let (wher, r2) ← optClause "WHERE" clauseKws parseCond r1
  let (orderBy, r3) ← optClause "ORDER" ["FROM", "WHERE", "GROUP", "HAVING", "LIMIT", "OFFSET"]
    parseOrderBy r2
  let (limit, r4) ← optClause "LIMIT" clauseKws parseOperand r3
  let (offset, r5) ← optClause "OFFSET" clauseKws parseOperand r4
  if r5 = [] then some ⟨sel, frm, wher, orderBy, limit, offset⟩ else none

def parseDeleteBody (ts : List Token) : Option Stmt := do
  let (tbl?, r1) ← optClause "FROM" clauseKws
    (fun x => match x with | [.word t] => some t | _ => none) ts
  let tbl ← tbl?
  let (wher, r2) ← optClause "WHERE" clauseKws parseCond r1
  if r2 = [] then some (.delete tbl wher) else none

/-- A statement may end with one `;`. -/
def stripSemi (ts : List Token) : List Token :=
  if ts.getLast? = some (.sym ';') then ts.dropLast else ts

def parseTokens (ts : List Token) : Option Stmt :=
  match stripSemi ts with
  | t :: rest =>
    if isKw "SELECT" t then (parseSelectBody rest).map .select
    else if isKw "DELETE" t then parseDeleteBody rest
    else none
  | [] => none

/-- Parse a template. -/
def parse (tpl : String) : Option Stmt := parseTokens (lex tpl)

/-- The SELECT statement of a template. -/
def parseSelect (tpl : String) : Option Select :=
  match parse tpl with
  | some (.select q) => some q
  | _ => none

/-! ## Data model

The tables are declared outside `build.go`; the model has the columns the templates
name, integers for the keys, the sequence number and the timestamp, text for the rest. -/

/-- SQL value of a column or a bound argument. -/
inductive Val where
  | int (n : Int)
  | text (s : String)
  deriving DecidableEq, Repr

/-- Modelled from the spec: the `builds` table is declared outside `build.go`.  A build
has the attributes `id`, `number`, `repo_id`, `branch`, `event`, `status`, `created`,
which are the columns the templates filter and sort on. -/
structure Build where
  id : Int
  repo_id : Int
  number : Int
  branch : String
  event : String
  status : String
  created : Int
  deriving DecidableEq, Repr

/-- Modelled from the spec: the `repos` table is declared outside `build.go`.  A build
belongs to one repository and a repository to one organization; the templates read the
columns `id`, `org` and `full_name`. -/
structure Repo where
  id : Int
  org : String
  full_name : String
  deriving DecidableEq, Repr

structure DB where
  builds : List Build
  repos : List Repo
  deriving DecidableEq, Repr

/-- Row of a FROM clause: a build, joined with a repo or not. -/
structure Row where
  b : Build
  r : Option Repo
  deriving DecidableEq, Repr

/-- A build as a row of `FROM builds`. -/
def Row.ofBuild (b : Build) : Row := ⟨b, none⟩

def Build.col (b : Build) (c : String) : Option Val :=
  if c = "id" then some (.int b.id)
  else if c = "repo_id" then some (.int b.repo_id)
  else if c = "number" then some (.int b.number)
  else if c = "branch" then some (.text b.branch)
  else if c = "event" then some (.text b.event)
  else if c = "status" then some (.text b.status)
  else if c = "created" then some (.int b.created)
  else none

def Repo.col (r : Repo) (c : String) : Option Val :=
  if c = "id" then some (.int r.id)
  else if c = "org" then some (.text r.org)
  else if c = "full_name" then some (.text r.full_name)
  else none

/-- Value of a column reference in a row.  An unqualified name is looked up in
`builds` first, then in the joined `repos` row: in the org listings `ORDER BY id`
names the output column `builds.id`. -/
def Row.col (row : Row) (c : Col) : Option Val :=
  match c.tbl with
  | some t =>
    if t = "builds" then row.b.col c.name
    else if t = "repos" then row.r.bind (fun rp => rp.col c.name)
    else none
  | none =>
    match row.b.col c.name with
    | some v => some v
    | none => row.r.bind (fun rp => rp.col c.name)

def Build.tuple (b : Build) : List Val :=
  [.int b.id, .int b.repo_id, .int b.number, .text b.branch, .text b.event, .text b.status,
    .int b.created]

def Repo.tuple (r : Repo) : List Val := [.int r.id, .text r.org, .text r.full_name]

/-! ## Evaluator -/

/-- SQLite's comparison: integers by value, text by characters, any integer below any
text. -/
def Val.gt : Val → Val → Bool
  | .int a, .int b => decide (a > b)
  | .text a, .text b => decide (a > b)
  | .text _, .int _ => true
  | .int _, .text _ => false

def Val.le (a b : Val) : Bool := !(Val.gt a b)

/-- Argument bound to placeholder `i` (counted from 1). -/
def argAt (args : List Val) (i : Nat) : Option Val :=
  match i with
  | 0 => none
  | j + 1 => args.get? j

def evalOperand (args : List Val) (row : Row) : Operand → Option Val
  | .param i => argAt args i
  | .text s => some (.text s)
  | .int n => some (.int n)
  | .col c => row.col c

def evalAtom (args : List Val) (row : Row) (a : Atom) : Option Bool :=
  match row.col a.lhs, evalOperand args row a.rhs with
  | some l, some r =>
    match a.op with
    | .eq => some (decide (l = r))
    | .gt => some (Val.gt l r)
  | _, _ => none

/-- Conjunction of comparisons. -/
def evalConj (args : List Val) (row : Row) : List Atom → Option Bool
  | [] => some true
  | a :: as =>
    match evalAtom args row a, evalConj args row as with
    | some x, some y => some (x && y)
    | _, _ => none

/-- Disjunction of conjunctions. -/
def evalCond (args : List Val) (row : Row) : Cond → Option Bool
  | [] => some false
  | c :: cs =>
    match evalConj args row c, evalCond args row cs with
    | some x, some y => some (x || y)
    | _, _ => none

/-- The WHERE clause on a row; no clause accepts every row. -/
def evalWhere (args : List Val) (w : Option Cond) (row : Row) : Option Bool :=
  match w with
  | none => some true
  | some c => evalCond args row c

/-- Keep the rows a fallible predicate accepts; fails when the predicate fails. -/
def filterRows (p : Row → Option Bool) : List Row → Option (List Row)
  | [] => some []
  | row :: rest =>
    match p row, filterRows p rest with
    | some keep, some rs => some (if keep then row :: rs else rs)
    | _, _ => none

/-- Rows of the FROM clause.  The templates read `builds`, alone or joined with
`repos`; a join is every pair of rows whose ON columns are equal. -/
def fromRows (db : DB) : From → Option (List Row)
  | .table t => if t = "builds" then some (db.builds.map Row.ofBuild) else none
  | .join l r onL onR =>
    if l = "builds" ∧ r = "repos" then
      filterRows
        (fun row =>
          match row.col onL, row.col onR with
          | some x, some y => some (decide (x = y))
          | _, _ => none)
        (db.builds.flatMap (fun b => db.repos.map (fun rp => ⟨b, some rp⟩)))
    else none

/-- FROM and WHERE. -/
def matchingRows (q : Select) (db : DB) (args : List Val) : Option (List Row) :=
  (fromRows db q.frm).bind (filterRows (evalWhere args q.wher))

/-- Sort key of a row for an ORDER BY column every row has. -/
def Row.key (c : Col) (row : Row) : Val := (row.col c).getD (.int 0)

/-- ORDER BY: a stable sort on the column. -/
def orderRows (ob : Option (Col × Dir)) (rows : List Row) : Option (List Row) :=
  match ob with
  | none => some rows
  | some (c, d) =>
    if rows.all (fun row => (row.col c).isSome) then
      match d with
      | .desc => some (rows.insertionSort (fun a b => Val.le (b.key c) (a.key c) = true))
      | .asc => some (rows.insertionSort (fun a b => Val.le (a.key c) (b.key c) = true))
    else none

/-- Argument of LIMIT or OFFSET: an integer, when the clause is there. -/
def windowArg (args : List Val) : Option Operand → Option (Option Int)
  | none => some none
  | some (.int n) => some (some n)
  | some (.param i) =>
    match argAt args i with
    | some (.int n) => some (some n)
    | _ => none
  | some _ => none

/-- OFFSET then LIMIT, as SQLite applies them: a negative OFFSET skips nothing and a
negative LIMIT is no limit. -/
def window {α : Type} (limit offset : Option Int) (xs : List α) : List α :=
  let rest :=
    match offset with
    | some o => xs.drop o.toNat
    | none => xs
  match limit with
  | some l => if l < 0 then rest else rest.take l.toNat
  | none => rest

/-- Rows of a SELECT without aggregate: FROM, WHERE, ORDER BY, OFFSET, LIMIT. -/
def Select.rows (q : Select) (db : DB) (args : List Val) : Option (List Row) := do
  let rows ← matchingRows q db args
  let sorted ← orderRows q.orderBy rows
  let limit ← windowArg args q.limit
  let offset ← windowArg args q.offset
  some (window limit offset sorted)

/-- Output columns of a row. -/
def project (sel : Sel) (row : Row) : Option (List Val) :=
  match sel with
  | .star => some (row.b.tuple ++ (row.r.map Repo.tuple).getD [])
  | .tblStar t =>
    if t = "builds" then some row.b.tuple
    else if t = "repos" then row.r.map Repo.tuple
    else none
  | .cols cs => parseAll row.col cs
  | .countStar _ => none

/-- Result set of a SELECT.  An ungrouped `count(*)` makes one row out of all the
matching rows, and OFFSET and LIMIT then apply to that one row. -/
def Select.run (q : Select) (db : DB) (args : List Val) : Option (List (List Val)) :=
  match q.sel with
  | .countStar _ => do
    let rows ← matchingRows q db args
    let limit ← windowArg args q.limit
    let offset ← windowArg args q.offset
    some (window limit offset [[Val.int rows.length]])
  | sel => (q.rows db args).bind (parseAll (project sel))

/-- Result set of a SELECT template for the bound arguments. -/
def query (tpl : String) (db : DB) (args : List Val) : Option (List (List Val)) :=
  (parseSelect tpl).bind (fun q => q.run db args)

/-- Result of a SELECT template whose output columns are those of `builds`
(`SELECT *` from `builds`, or `SELECT builds.*`), as builds. -/
def queryBuilds (tpl : String) (db : DB) (args : List Val) : Option (List Build) :=
  match parseSelect tpl with
  | some q =>
    if (q.sel = .star ∧ q.frm = .table "builds") ∨ q.sel = .tblStar "builds" then
      (q.rows db args).map (fun rows => rows.map (fun row => row.b))
    else none
  | none => none

/-- Run a DELETE template on `builds`: the database afterwards and the number of rows
removed. -/
def exec (tpl : String) (db : DB) (args : List Val) : Option (DB × Nat) :=
  match parse tpl with
  | some (.delete t w) =>
    if t = "builds" then
      match filterRows (evalWhere args w) (db.builds.map Row.ofBuild),
        filterRows (fun row => (evalWhere args w row).map (fun x => !x))
          (db.builds.map Row.ofBuild) with
      | some hit, some keep =>
        some ({ db with builds := keep.map (fun row => row.b) }, hit.length)
      | _, _ => none
    else none
  | _ => none

/-! ## The catalog of the specification -/

/-- Published keys of the List class. -/
def listKeys : List String := ["all", "repo", "repoByEvent", "org", "orgByEvent"]

/-- Published keys of the Select class. -/
def selectKeys : List String :=
  ["repo", "last", "lastByBranch", "count", "countByStatus", "countByRepo",
    "countByRepoAndEvent", "countByOrg", "countByOrgAndEvent", "pendingAndRunning"]

/-- Documented number of parameters of each List key. -/
def listArity : List (String × Nat) :=
  [("all", 0), ("repo", 3), ("repoByEvent", 4), ("org", 3), ("orgByEvent", 4)]

/-- Documented number of parameters of each Select key. -/
def selectArity : List (String × Nat) :=
  [("repo", 2), ("last", 1), ("lastByBranch", 2), ("count", 0), ("countByStatus", 1),
    ("countByRepo", 1), ("countByRepoAndEvent", 2), ("countByOrg", 1),
    ("countByOrgAndEvent", 2), ("pendingAndRunning", 1)]

/-- Documented number of parameters of `delete.build`. -/
def deleteArity : Nat := 1

/-! ## Placeholders -/

def Token.isPlaceholder : Token → Bool
  | .qmark _ => true
  | .ordinal _ => true
  | _ => false

/-- Number of placeholder tokens of a template. -/
def placeholderCount (tpl : String) : Nat := (lex tpl).countP Token.isPlaceholder

/-- Occurrences of `$` followed by a digit. -/
def countOrdinalChars : List Char → Nat
  | [] => 0
  | c :: cs =>
    (match cs with
      | d :: _ => if c = '$' ∧ d.isDigit then 1 else 0
      | [] => 0) + countOrdinalChars cs

/-- Occurrences of `?` plus occurrences of `$` followed by a digit, in the text. -/
def placeholderChars (tpl : String) : Nat :=
  tpl.data.count '?' + countOrdinalChars tpl.data

/-- The two positional-placeholder styles. -/
inductive Style where
  | question
  | ordinal
  deriving DecidableEq, Repr

def Token.style : Token → Option Style
  | .qmark _ => some .question
  | .ordinal _ => some .ordinal
  | _ => none

/-- Style of every placeholder of a template, in order. -/
def stylesOf (tpl : String) : List Style := (lex tpl).filterMap Token.style

/-- Numbers of the ordinal placeholders of a template, in order. -/
def ordinalsOf (tpl : String) : List Nat :=
  (lex tpl).filterMap (fun t =>
    match t with
    | .ordinal n => some n
    | _ => none)

/-- Every template the service exposes. -/
def templatesOf (svc : Service) : List String :=
  svc.List.map Prod.snd ++ svc.Select.map Prod.snd ++ [svc.Delete]

/-- All placeholders of all templates of the service are written in style `s`. -/
def allInStyle (svc : Service) (s : Style) : Bool :=
  (templatesOf svc).all (fun tpl => (stylesOf tpl).all (fun x => decide (x = s)))

/-- ORDER BY clause of a SELECT template: `some none` when the template has none. -/
def orderClause (tpl : String) : Option (Option (Col × Dir)) :=
  (parseSelect tpl).map (fun q => q.orderBy)

/-- WHERE condition of a SELECT template evaluated on one joined row. -/
def whereAccepts (tpl : String) (args : List Val) (b : Build) (rp : Repo) : Option Bool :=
  (parseSelect tpl).bind (fun q => evalWhere args q.wher ⟨b, some rp⟩)

/-! ## Shorthands -/

def colOf (name : String) : Col := ⟨none, name⟩

def colIn (tbl name : String) : Col := ⟨some tbl, name⟩

/-- The join of the org templates: `builds JOIN repos ON repos.id = builds.repo_id`. -/
def orgJoin : From := .join "builds" "repos" (colIn "repos" "id") (colIn "builds" "repo_id")

/-! ## Definitions used to state the list.repo properties -/

/-- Number of builds of a repo. -/
def repoBuildCount (db : DB) (r : Int) : Nat :=
  (db.builds.filter (fun b => decide (b.repo_id = r))).length

/-- In the words of the specification: the rows with the given repo_id, sorted by id
descending. -/
def repoBuildsDesc (db : DB) (r : Int) : List Build :=
  (db.builds.filter (fun b => decide (b.repo_id = r))).insertionSort (fun a b => b.id ≤ a.id)

/-- The same build with another `number`. -/
def Build.withNumber (b : Build) (n : Int) : Build := { b with number := n }

/-- The same database with every build renumbered by `f`. -/
def DB.renumber (db : DB) (f : Build → Int) : DB :=
  { db with builds := db.builds.map (fun b => b.withNumber (f b)) }

/-! ## Definitions used to state the single-row select properties -/

/-- The six count templates, as the registry files them. -/
def countTemplates : List String :=
  [createBuildService.Select.index "count", createBuildService.Select.index "countByStatus",
    createBuildService.Select.index "countByRepo",
    createBuildService.Select.index "countByRepoAndEvent",
    createBuildService.Select.index "countByOrg",
    createBuildService.Select.index "countByOrgAndEvent"]

/-- Select list, ORDER BY, LIMIT and OFFSET of a SELECT template. -/
def shapeOf (tpl : String) :
    Option (Sel × Option (Col × Dir) × Option Operand × Option Operand) :=
  (parseSelect tpl).map (fun q => (q.sel, q.orderBy, q.limit, q.offset))

/-- Rows of `builds JOIN repos ON repos.id = builds.repo_id`: the pairs of a build and a
repo whose id is the build's repo_id. -/
def DB.joined (db : DB) : List (Build × Repo) :=
  (db.builds.flatMap (fun b => db.repos.map (fun rp => (b, rp)))).filter
    (fun p => decide (p.2.id = p.1.repo_id))

/-- A pair of the join as a row. -/
def Row.ofPair (p : Build × Repo) : Row := ⟨p.1, some p.2⟩

/-- The database with the builds of the given id removed. -/
def DB.without (db : DB) (i : Int) : DB :=
  { db with builds := db.builds.filter (fun b => !decide (b.id = i)) }

/-! ## Fixtures -/

/-- A pending build created at time 50. -/
def staleBuild : Build := ⟨1, 1, 1, "main", "push", "pending", 50⟩

/-- The repo of the fixture builds. -/
def acmeRepo : Repo := ⟨1, "acme", "acme/a"⟩

/-- Three builds of repo 1 with ids 10, 11, 12 whose numbers are not in id order, and
one build of repo 2. -/
def fixture : DB :=
  ⟨[⟨10, 1, 3, "main", "push", "success", 100⟩, ⟨11, 1, 1, "main", "push", "running", 200⟩,
      ⟨12, 1, 2, "dev", "tag", "running", 300⟩, ⟨13, 2, 1, "main", "push", "pending", 400⟩],
    [acmeRepo, ⟨2, "acme", "acme/b"⟩]⟩

/-! ## What the parser reads in each template -/

set_option maxRecDepth 100000 in
theorem parse_ListBuilds :
    parseSelect ListBuilds = some ⟨.star, .table "builds", none, none, none, none⟩ := by
  decide

set_option maxRecDepth 100000 in
theorem parse_ListRepoBuilds :
    parseSelect ListRepoBuilds =
      some ⟨.star, .table "builds", some [[⟨colOf "repo_id", .eq, .param 1⟩]],
        some (colOf "id", .desc), some (.param 2), some (.param 3)⟩ := by
  decide

set_option maxRecDepth 100000 in
theorem parse_ListRepoBuildsByEvent :
    parseSelect ListRepoBuildsByEvent =
      some ⟨.star, .table "builds",
        some [[⟨colOf "repo_id", .eq, .param 1⟩, ⟨colOf "event", .eq, .param 2⟩]],
        some (colOf "number", .desc), some (.param 3), some (.param 4)⟩ := by
  decide

set_option maxRecDepth 100000 in
theorem parse_ListOrgBuilds :
    parseSelect ListOrgBuilds =
      some ⟨.tblStar "builds", orgJoin, some [[⟨colIn "repos" "org", .eq, .param 1⟩]],
        some (colOf "id", .desc), some (.param 2), some (.param 3)⟩ := by
  decide

set_option maxRecDepth 100000 in
theorem parse_ListOrgBuildsByEvent :
    parseSelect ListOrgBuildsByEvent =
      some ⟨.tblStar "builds", orgJoin,
        some [[⟨colIn "repos" "org", .eq, .param 1⟩, ⟨colIn "builds" "event", .eq, .param 2⟩]],
        some (colOf "id", .desc), some (.param 3), some (.param 4)⟩ := by
  decide

set_option maxRecDepth 100000 in
theorem parse_SelectBuildsCount :
    parseSelect SelectBuildsCount =
      some ⟨.countStar "count", .table "builds", none, none, none, none⟩ := by
  decide

set_option maxRecDepth 100000 in
theorem parse_SelectOrgBuildCount :
    parseSelect SelectOrgBuildCount =
      some ⟨.countStar "count", orgJoin, some [[⟨colIn "repos" "org", .eq, .param 1⟩]],
        none, none, none⟩ := by
  decide

set_option maxRecDepth 100000 in
theorem parse_SelectOrgBuildCountByEvent :
    parseSelect SelectOrgBuildCountByEvent =
      some ⟨.countStar "count", orgJoin,
        some [[⟨colIn "repos" "org", .eq, .param 1⟩, ⟨colOf "event", .eq, .param 2⟩]],
        none, none, none⟩ := by
  decide

set_option maxRecDepth 100000 in
theorem parse_SelectRepoBuildCount :
    parseSelect SelectRepoBuildCount =
      some ⟨.countStar "count", .table "builds", some [[⟨colOf "repo_id", .eq, .param 1⟩]],
        none, none, none⟩ := by
  decide

set_option maxRecDepth 100000 in
theorem parse_SelectRepoBuildCountByEvent :
    parseSelect SelectRepoBuildCountByEvent =
      some ⟨.countStar "count", .table "builds",
        some [[⟨colOf "repo_id", .eq, .param 1⟩, ⟨colOf "event", .eq, .param 2⟩]],
        none, none, none⟩ := by
  decide

set_option maxRecDepth 100000 in
theorem parse_SelectBuildsCountByStatus :
    parseSelect SelectBuildsCountByStatus =
      some ⟨.countStar "count", .table "builds", some [[⟨colOf "status", .eq, .param 1⟩]],
        none, none, none⟩ := by
  decide

set_option maxRecDepth 100000 in
theorem parse_DeleteBuild :
    parse DeleteBuild = some (.delete "builds" (some [[⟨colOf "id", .eq, .param 1⟩]])) := by
  decide

set_option maxRecDepth 100000 in
/-- The condition of the pending-and-running template, as the parser groups it:
`(created > $1 AND status = 'running') OR status = 'pending'`. -/
theorem parse_SelectPendingAndRunningBuilds :
    parseSelect SelectPendingAndRunningBuilds =
      some ⟨.cols [colIn "builds" "created", colIn "builds" "number", colIn "builds" "status",
          colIn "repos" "full_name"],
        .join "builds" "repos" (colIn "builds" "repo_id") (colIn "repos" "id"),
        some [[⟨colIn "builds" "created", .gt, .param 1⟩,
            ⟨colIn "builds" "status", .eq, .text "running"⟩],
          [⟨colIn "builds" "status", .eq, .text "pending"⟩]],
        none, none, none⟩ := by
  decide

/-! ## What the registry serves under each key -/

theorem served_list_repo : createBuildService.List.index "repo" = ListRepoBuilds := by
  decide

theorem served_select_count : createBuildService.Select.index "count" = SelectBuildsCount := by
  decide

theorem served_select_countByStatus :
    createBuildService.Select.index "countByStatus" = SelectBuildsCountByStatus := by
  decide

theorem served_select_countByRepo :
    createBuildService.Select.index "countByRepo" = SelectRepoBuildCount := by
  decide

theorem served_select_countByRepoAndEvent :
    createBuildService.Select.index "countByRepoAndEvent" = SelectRepoBuildCountByEvent := by
  decide

theorem served_select_countByOrg :
    createBuildService.Select.index "countByOrg" = SelectOrgBuildCount := by
  decide

theorem served_select_countByOrgAndEvent :
    createBuildService.Select.index "countByOrgAndEvent" = SelectOrgBuildCountByEvent := by
  decide

theorem served_delete : createBuildService.Delete = DeleteBuild := rfl

/-! ## The registry: entries, arities, unknown keys, styles -/

set_option maxRecDepth 100000 in
/-- C1: for every published key the service built by createBuildService holds a
non-empty template: each List key and each Select key is present in its map with a
non-empty string, and Delete is a non-empty string. -/
theorem registry_entries_nonempty :
    (∀ k ∈ listKeys,
      (createBuildService.List.index2 k).2 = true ∧ createBuildService.List.index k ≠ "") ∧
    (∀ k ∈ selectKeys,
      (createBuildService.Select.index2 k).2 = true ∧
        createBuildService.Select.index k ≠ "") ∧
    createBuildService.Delete ≠ "" := by
  decide

/-- Witness for C1 at the key `repo` of both maps. -/
theorem registry_entries_nonempty_witness :
    "repo" ∈ listKeys ∧ "repo" ∈ selectKeys ∧
      createBuildService.List.index "repo" ≠ "" ∧
      createBuildService.Select.index "repo" ≠ "" :=
  ⟨by decide, by decide, (registry_entries_nonempty.1 "repo" (by decide)).2,
    (registry_entries_nonempty.2.1 "repo" (by decide)).2⟩

set_option maxRecDepth 100000 in
/-- C2: for every published key, the number of positional placeholders of its template
(placeholder tokens of the lexer, and also occurrences of `?` plus occurrences of `$`
followed by a digit in the text) equals the documented arity. -/
theorem placeholder_count_eq_arity :
    (∀ p ∈ listArity,
      placeholderCount (createBuildService.List.index p.1) = p.2 ∧
        placeholderChars (createBuildService.List.index p.1) = p.2) ∧
    (∀ p ∈ selectArity,
      placeholderCount (createBuildService.Select.index p.1) = p.2 ∧
        placeholderChars (createBuildService.Select.index p.1) = p.2) ∧
    placeholderCount createBuildService.Delete = deleteArity ∧
    placeholderChars createBuildService.Delete = deleteArity := by
  decide

/-- Witness for C2 at `list.orgByEvent` and `select.lastByBranch`. -/
theorem placeholder_count_eq_arity_witness :
    ("orgByEvent", 4) ∈ listArity ∧ ("lastByBranch", 2) ∈ selectArity ∧
      placeholderCount (createBuildService.List.index "orgByEvent") = 4 ∧
      placeholderCount (createBuildService.Select.index "lastByBranch") = 2 :=
  ⟨by decide, by decide,
    (placeholder_count_eq_arity.1 ("orgByEvent", 4) (by decide)).1,
    (placeholder_count_eq_arity.2.1 ("lastByBranch", 2) (by decide)).1⟩

/-- C4, as stated, fails: indexing the List map and the Select map with the unpublished
key `unknown` does not fail; it yields the empty string. -/
theorem unknown_key_yields_empty_string :
    "unknown" ∉ listKeys ∧ "unknown" ∉ selectKeys ∧
      createBuildService.List.index "unknown" = "" ∧
      createBuildService.Select.index "unknown" = "" := by
  decide

/-- C4, amended: for every key that is not a published key, indexing the List map or
the Select map of the service yields Go's zero value, the empty string, and the
two-result form reports `ok = false`; no NotFound condition is raised. -/
theorem unknown_key_zero_value (k : String) :
    (k ∉ listKeys → createBuildService.List.index2 k = ("", false) ∧
      createBuildService.List.index k = "") ∧
    (k ∉ selectKeys → createBuildService.Select.index2 k = ("", false) ∧
      createBuildService.Select.index k = "") := by
  constructor
  · intro h
    simp [listKeys] at h
    simp [createBuildService, GoMap.index, GoMap.index2, GoMap.find, h, Ne.symm]
  · intro h
    simp [selectKeys] at h
    simp [createBuildService, GoMap.index, GoMap.index2, GoMap.find, h, Ne.symm]

/-- Witness for the amended C4 at the key `unknown`. -/
theorem unknown_key_zero_value_witness :
    "unknown" ∉ listKeys ∧ "unknown" ∉ selectKeys ∧
      createBuildService.List.index2 "unknown" = ("", false) ∧
      createBuildService.Select.index2 "unknown" = ("", false) :=
  ⟨by decide, by decide, ((unknown_key_zero_value "unknown").1 (by decide)).1,
    ((unknown_key_zero_value "unknown").2 (by decide)).1⟩

set_option maxRecDepth 100000 in
/-- C9, as stated, fails: in the one registry built by createBuildService, `list.repo`
writes its three placeholders as `?` and `list.org` writes its three as `$1, $2, $3`;
the templates of the registry are neither all in the `?` style nor all in the ordinal
style. -/
theorem registry_mixes_placeholder_styles :
    stylesOf (createBuildService.List.index "repo") = [.question, .question, .question] ∧
    stylesOf (createBuildService.List.index "org") = [.ordinal, .ordinal, .ordinal] ∧
    allInStyle createBuildService .question = false ∧
    allInStyle createBuildService .ordinal = false := by
  decide

set_option maxRecDepth 100000 in
/-- C9, amended: the style of every placeholder of every template the registry serves,
key by key.  The templates over `builds` alone (list.repo, list.repoByEvent,
select.repo, select.last, select.lastByBranch, select.countByStatus,
select.countByRepo, select.countByRepoAndEvent, delete.build) are written with `?`
only; the joined templates (list.org, list.orgByEvent, select.countByOrg,
select.countByOrgAndEvent, select.pendingAndRunning) with ordinals only, numbered
`1, 2, ...` in order; list.all and select.count have no placeholder.  No template mixes
the two styles. -/
theorem placeholder_styles_by_key :
    listKeys.map (fun k => stylesOf (createBuildService.List.index k)) =
      [[], [.question, .question, .question],
        [.question, .question, .question, .question],
        [.ordinal, .ordinal, .ordinal], [.ordinal, .ordinal, .ordinal, .ordinal]] ∧
    selectKeys.map (fun k => stylesOf (createBuildService.Select.index k)) =
      [[.question, .question], [.question], [.question, .question], [], [.question],
        [.question], [.question, .question], [.ordinal], [.ordinal, .ordinal], [.ordinal]] ∧
    stylesOf createBuildService.Delete = [.question] ∧
    listKeys.map (fun k => ordinalsOf (createBuildService.List.index k)) =
      [[], [], [], [1, 2, 3], [1, 2, 3, 4]] ∧
    selectKeys.map (fun k => ordinalsOf (createBuildService.Select.index k)) =
      [[], [], [], [], [], [], [], [1], [1, 2], [1]] := by
  decide

/-! ## Evaluation lemmas -/

theorem filterRows_eq_filter (p : Row → Option Bool) (f : Row → Bool) (rows : List Row)
    (h : ∀ row ∈ rows, p row = some (f row)) : filterRows p rows = some (rows.filter f) := by
  induction rows with
  | nil => rfl
  | cons row rest ih =>
    have h1 := h row (List.mem_cons_self _ _)
    have h2 := ih (fun x hx => h x (List.mem_cons_of_mem _ hx))
    simp only [filterRows, h1, h2, List.filter_cons]

/-- FROM and WHERE on `builds` alone, for a condition that evaluates on every build. -/
theorem matchingRows_table (q : Select) (db : DB) (args : List Val) (P : Build → Bool)
    (hf : q.frm = .table "builds")
    (hP : ∀ b : Build, evalWhere args q.wher (Row.ofBuild b) = some (P b)) :
    matchingRows q db args = some ((db.builds.filter P).map Row.ofBuild) := by
  have h : ∀ row ∈ db.builds.map Row.ofBuild,
      evalWhere args q.wher row = some (P row.b) := by
    intro row hrow
    obtain ⟨b, _, rfl⟩ := List.mem_map.1 hrow
    exact hP b
  simp only [matchingRows, hf, fromRows, if_true, Option.some_bind]
  rw [filterRows_eq_filter _ _ _ h, List.filter_map]
  rfl

/-- ORDER BY an integer column of `builds`, descending. -/
theorem orderRows_desc_ofBuild (c : String) (key : Build → Int)
    (hkey : ∀ b : Build, b.col c = some (.int (key b))) (l : List Build) :
    orderRows (some (colOf c, .desc)) (l.map Row.ofBuild) =
      some ((l.insertionSort (fun a b => key b ≤ key a)).map Row.ofBuild) := by
  have hcol : ∀ b : Build, (Row.ofBuild b).col (colOf c) = some (.int (key b)) := by
    intro b
    simp [Row.col, Row.ofBuild, colOf, hkey]
  have hall : (l.map Row.ofBuild).all (fun row => (row.col (colOf c)).isSome) = true := by
    simp [hcol]
  simp only [orderRows, hall, if_true]
  congr 1
  symm
  apply List.map_insertionSort
  intro a _ b _
  simp [Row.key, hcol, Val.le, Val.gt]

theorem map_b_ofBuild (l : List Build) : (l.map Row.ofBuild).map (fun row => row.b) = l := by
  induction l with
  | nil => rfl
  | cons b rest ih => simp only [List.map_cons, ih]; rfl

theorem window_map {α β : Type} (f : α → β) (l o : Option Int) (xs : List α) :
    (window l o xs).map f = window l o (xs.map f) := by
  cases l <;> cases o <;> simp only [window, List.map_drop] <;> split <;>
    simp only [List.map_drop, List.map_take]

/-- A SELECT on `builds` alone with an ORDER BY on an integer column, descending. -/
theorem rows_table_desc (q : Select) (db : DB) (args : List Val) (P : Build → Bool)
    (c : String) (key : Build → Int) (lim off : Option Int)
    (hf : q.frm = .table "builds")
    (hP : ∀ b : Build, evalWhere args q.wher (Row.ofBuild b) = some (P b))
    (ho : q.orderBy = some (colOf c, .desc))
    (hkey : ∀ b : Build, b.col c = some (.int (key b)))
    (hl : windowArg args q.limit = some lim) (hoff : windowArg args q.offset = some off) :
    (q.rows db args).map (fun rows => rows.map (fun row => row.b)) =
      some (window lim off ((db.builds.filter P).insertionSort (fun a b => key b ≤ key a))) := by
  simp only [Select.rows, matchingRows_table q db args P hf hP, ho,
    orderRows_desc_ofBuild c key hkey, hl, hoff, Option.bind_eq_bind, Option.some_bind,
    Option.map_some', window_map, map_b_ofBuild]

/-- What `list.repo` computes: the builds of the repo, by id descending, windowed. -/
theorem queryBuilds_ListRepoBuilds (db : DB) (r L O : Int) :
    queryBuilds ListRepoBuilds db [.int r, .int L, .int O] =
      some (window (some L) (some O)
        ((db.builds.filter (fun b => decide (b.repo_id = r))).insertionSort
          (fun a b => b.id ≤ a.id))) := by
  simp only [queryBuilds, parse_ListRepoBuilds]
  rw [if_pos (by decide)]
  exact rows_table_desc _ db _ (fun b => decide (b.repo_id = r)) "id" Build.id (some L) (some O)
    rfl
    (by
      intro b
      simp [evalWhere, evalCond, evalConj, evalAtom, evalOperand, argAt, Row.col, Build.col,
        colOf, Row.ofBuild])
    rfl (by intro b; simp [Build.col]) (by simp [windowArg, argAt]) (by simp [windowArg, argAt])

/-- Sorting by an integer key, descending, gives a list that is descending in the key. -/
theorem sorted_desc_key {α : Type} (key : α → Int) (l : List α) :
    (l.insertionSort (fun a b => key b ≤ key a)).Sorted (fun a b => key b ≤ key a) :=
  @List.sorted_insertionSort α (fun a b => key b ≤ key a) _
    ⟨fun a b => le_total (key b) (key a)⟩ ⟨fun _ _ _ h1 h2 => le_trans h2 h1⟩ l

/-- With distinct keys the descending sort is strictly descending. -/
theorem sorted_desc_strict {α : Type} (key : α → Int) (l : List α) (hn : (l.map key).Nodup) :
    (l.insertionSort (fun a b => key b ≤ key a)).Sorted (fun a b => key a > key b) := by
  have hs := sorted_desc_key key l
  have hp : List.Perm ((l.insertionSort (fun a b => key b ≤ key a)).map key) (l.map key) :=
    (List.perm_insertionSort _ l).map key
  have hn2 : ((l.insertionSort (fun a b => key b ≤ key a)).map key).Nodup :=
    hp.nodup_iff.2 hn
  have hne : (l.insertionSort (fun a b => key b ≤ key a)).Pairwise
      (fun a b => key a ≠ key b) := List.pairwise_map.1 hn2
  exact (List.Pairwise.and hs hne).imp (fun h => lt_of_le_of_ne h.1 (Ne.symm h.2))

/-- Consecutive pages of `l` elements cover a list once `k` pages reach its length. -/
theorem pages_concat {α : Type} (l : Nat) (k : Nat) (xs : List α)
    (hk : xs.length ≤ k * l) :
    (List.range k).flatMap (fun i => (xs.drop (i * l)).take l) = xs := by
  induction k generalizing xs with
  | zero =>
    have h0 : xs.length = 0 := by omega
    simp [List.length_eq_zero.1 h0]
  | succ k ih =>
    have hrest : (xs.drop l).length ≤ k * l := by
      rw [List.length_drop]
      have : (k + 1) * l = k * l + l := by ring
      omega
    have hih := ih (xs.drop l) hrest
    rw [List.range_succ_eq_map, List.flatMap_cons, List.flatMap_map]
    have hfun : (fun i => (xs.drop ((i + 1) * l)).take l) =
        (fun i => ((xs.drop l).drop (i * l)).take l) := by
      funext i
      rw [List.drop_drop]
      congr 2
      ring
    simp only [Function.comp_def, Nat.succ_eq_add_one, Nat.zero_mul, List.drop_zero]
    rw [hfun, hih, List.take_append_drop]

/-- OFFSET and LIMIT with non-negative arguments: skip, then take. -/
theorem window_nonneg {α : Type} (L O : Int) (hL : 0 ≤ L) (xs : List α) :
    window (some L) (some O) xs = (xs.drop O.toNat).take L.toNat := by
  simp only [window]
  rw [if_neg (by omega)]

/-! ## list.repo -/

theorem repoBuildsDesc_renumber (db : DB) (f : Build → Int) (r : Int) :
    repoBuildsDesc (db.renumber f) r =
      (repoBuildsDesc db r).map (fun b => b.withNumber (f b)) := by
  simp only [repoBuildsDesc, DB.renumber, List.filter_map]
  symm
  have hfilter : ((fun b : Build => decide (b.repo_id = r)) ∘ fun b => b.withNumber (f b)) =
      (fun b : Build => decide (b.repo_id = r)) := by
    funext b
    simp [Build.withNumber]
  rw [hfilter]
  apply List.map_insertionSort
  intro a _ b _
  simp [Build.withNumber]

theorem repoBuildsDesc_sorted (db : DB) (r : Int) (hid : (db.builds.map Build.id).Nodup) :
    (repoBuildsDesc db r).Sorted (fun a b => a.id > b.id) := by
  apply sorted_desc_strict Build.id
  exact hid.sublist ((List.filter_sublist _).map Build.id)

theorem mem_repoBuildsDesc (db : DB) (r : Int) (b : Build) :
    b ∈ repoBuildsDesc db r ↔ b ∈ db.builds ∧ b.repo_id = r := by
  simp [repoBuildsDesc, List.mem_insertionSort, List.mem_filter]

theorem queryBuilds_ListRepoBuilds_page (db : DB) (r L O : Int) (hL : 0 ≤ L) :
    queryBuilds ListRepoBuilds db [.int r, .int L, .int O] =
      some (((repoBuildsDesc db r).drop O.toNat).take L.toNat) := by
  rw [queryBuilds_ListRepoBuilds, window_nonneg L O hL]
  rfl

/-- C6: the template the registry serves under list.repo (ListRepoBuilds), run on a
table with distinct ids, for a limit `L ≥ 0` and an offset `O ≥ 0`: the query returns a page; the page has `max 0 (min L (n - O))` rows,
`n` the number of builds of the repo; it is strictly descending in id and holds only
builds of the repo; renumbering the builds (any other `number` values) gives the same
page of renumbered builds; and for `L > 0` and any `k` with `n ≤ k * L` the
concatenation of the pages at offsets `0, L, ..., (k-1) * L` is the full list of the
repo's builds by id descending, which has no duplicates (it is strictly descending) and
no gaps (it holds every build of the repo) and `n` elements. -/
theorem listRepo_pagination (db : DB) (r L O : Int) (k : Nat)
    (hid : (db.builds.map Build.id).Nodup) (hL : 0 ≤ L) (hO : 0 ≤ O) :
    ∃ page : List Build,
      queryBuilds (createBuildService.List.index "repo") db [.int r, .int L, .int O] =
        some page ∧
      (page.length : Int) = max 0 (min L ((repoBuildCount db r : Int) - O)) ∧
      page.Sorted (fun a b => a.id > b.id) ∧
      (∀ b ∈ page, b ∈ db.builds ∧ b.repo_id = r) ∧
      (∀ f : Build → Int,
        queryBuilds (createBuildService.List.index "repo") (db.renumber f)
            [.int r, .int L, .int O] =
          some (page.map (fun b => b.withNumber (f b)))) ∧
      (0 < L → (repoBuildCount db r : Int) ≤ k * L →
        (List.range k).flatMap
          (fun i =>
            (queryBuilds (createBuildService.List.index "repo") db
              [.int r, .int L, .int (i * L)]).getD []) =
          repoBuildsDesc db r) ∧
      (repoBuildsDesc db r).Sorted (fun a b => a.id > b.id) ∧
      (∀ b, b ∈ repoBuildsDesc db r ↔ b ∈ db.builds ∧ b.repo_id = r) ∧
      (repoBuildsDesc db r).length = repoBuildCount db r := by
  simp only [served_list_repo]
  have hlen : (repoBuildsDesc db r).length = repoBuildCount db r := by
    simp [repoBuildsDesc, repoBuildCount, List.length_insertionSort]
  have hsorted := repoBuildsDesc_sorted db r hid
  refine ⟨((repoBuildsDesc db r).drop O.toNat).take L.toNat,
    queryBuilds_ListRepoBuilds_page db r L O hL, ?_, ?_, ?_, ?_, ?_, hsorted,
    mem_repoBuildsDesc db r, hlen⟩
  · rw [List.length_take, List.length_drop, hlen]
    omega
  · exact hsorted.sublist ((List.take_sublist _ _).trans (List.drop_sublist _ _))
  · intro b hb
    exact (mem_repoBuildsDesc db r b).1
      (List.mem_of_mem_drop (List.mem_of_mem_take hb))
  · intro f
    rw [queryBuilds_ListRepoBuilds_page _ r L O hL, repoBuildsDesc_renumber,
      List.map_take, List.map_drop]
  · intro hpos hk
    have hfun : (fun i : Nat =>
        (queryBuilds ListRepoBuilds db [.int r, .int L, .int (i * L)]).getD []) =
        (fun i : Nat => ((repoBuildsDesc db r).drop (i * L.toNat)).take L.toNat) := by
      funext i
      rw [queryBuilds_ListRepoBuilds_page db r L _ hL, Option.getD_some]
      congr 2
      have h1 : ((i : Int) * L).toNat = i * L.toNat := by
        lift L to ℕ using hL
        rw [← Nat.cast_mul, Int.toNat_natCast, Int.toNat_natCast]
      exact h1
    rw [hfun]
    apply pages_concat
    rw [hlen]
    lift L to ℕ using hL
    rw [Int.toNat_natCast]
    exact_mod_cast hk

/-! ## Single-row selects -/

/-- What `delete.build` computes: the builds with another id stay, and the number of
rows removed is the number of builds with the id. -/
theorem exec_DeleteBuild (db : DB) (i : Int) :
    exec DeleteBuild db [.int i] =
      some (db.without i, (db.builds.filter (fun b => decide (b.id = i))).length) := by
  have hw : ∀ row ∈ db.builds.map Row.ofBuild,
      evalWhere [.int i] (some [[⟨colOf "id", .eq, .param 1⟩]]) row =
        some (decide (row.b.id = i)) := by
    intro row _
    simp [evalWhere, evalCond, evalConj, evalAtom, evalOperand, argAt, Row.col, Build.col,
      colOf]
  have hn : ∀ row ∈ db.builds.map Row.ofBuild,
      (evalWhere [.int i] (some [[⟨colOf "id", .eq, .param 1⟩]]) row).map (fun x => !x) =
        some (!decide (row.b.id = i)) := by
    intro row hrow
    rw [hw row hrow]
    rfl
  simp only [exec, parse_DeleteBuild, if_true, filterRows_eq_filter _ _ _ hw,
    filterRows_eq_filter _ _ _ hn, List.filter_map, List.length_map, DB.without]
  congr 2
  · congr 1
    exact map_b_ofBuild _

/-- In a table with distinct ids at most one build has a given id. -/
theorem count_id_of_nodup (l : List Build) (i : Int) (hid : (l.map Build.id).Nodup) :
    (l.filter (fun b => decide (b.id = i))).length = if i ∈ l.map Build.id then 1 else 0 := by
  induction l with
  | nil => simp
  | cons b rest ih =>
    rw [List.map_cons, List.nodup_cons] at hid
    have ih' := ih hid.2
    by_cases hb : b.id = i
    · have hnot : i ∉ rest.map Build.id := hb ▸ hid.1
      rw [if_neg hnot] at ih'
      simp [List.filter_cons, hb, ih']
    · have hmem : i ∈ (b :: rest).map Build.id ↔ i ∈ rest.map Build.id := by
        simp [List.map_cons, List.mem_cons, Ne.symm hb]
      simp only [List.filter_cons, hb, decide_False, Bool.false_eq_true, if_false, ih', hmem]

theorem length_filter_not (l : List Build) (i : Int) :
    (l.filter (fun b => !decide (b.id = i))).length +
      (l.filter (fun b => decide (b.id = i))).length = l.length := by
  induction l with
  | nil => rfl
  | cons b rest ih =>
    by_cases hb : b.id = i
    · simp [List.filter_cons, hb]
      omega
    · simp [List.filter_cons, hb]
      omega

/-- C8: the statement the registry serves as Delete (DeleteBuild), run on a builds table
with unique ids.  The statement
runs and leaves the repos alone.  For an id not in the table it removes zero rows and
leaves the table unchanged; for an id in the table it removes one row, the table
afterwards holds exactly the builds with another id, in their order, and is one row
shorter; and running it again with the same id removes zero rows and changes nothing. -/
theorem delete_build_idempotent (db : DB) (i : Int) (hid : (db.builds.map Build.id).Nodup) :
    ∃ db' n, exec createBuildService.Delete db [.int i] = some (db', n) ∧
      db'.repos = db.repos ∧
      (i ∉ db.builds.map Build.id → n = 0 ∧ db' = db) ∧
      (i ∈ db.builds.map Build.id → n = 1 ∧
        db'.builds = db.builds.filter (fun b => !decide (b.id = i)) ∧
        (∀ b, b ∈ db'.builds ↔ b ∈ db.builds ∧ b.id ≠ i) ∧
        db'.builds.length + 1 = db.builds.length) ∧
      exec createBuildService.Delete db' [.int i] = some (db', 0) := by
  rw [served_delete]
  have hcount := count_id_of_nodup db.builds i hid
  refine ⟨db.without i, _, exec_DeleteBuild db i, rfl, ?_, ?_, ?_⟩
  · intro hnot
    rw [if_neg hnot] at hcount
    refine ⟨hcount, ?_⟩
    have hall : db.builds.filter (fun b => !decide (b.id = i)) = db.builds := by
      rw [List.filter_eq_self]
      intro b hb
      have : b.id ≠ i := fun h => hnot (h ▸ List.mem_map_of_mem Build.id hb)
      simp [this]
    simp only [DB.without, hall]
  · intro hmem
    rw [if_pos hmem] at hcount
    refine ⟨hcount, rfl, ?_, ?_⟩
    · intro b
      simp [DB.without, List.mem_filter]
    · have := length_filter_not db.builds i
      simp only [DB.without]
      omega
  · rw [exec_DeleteBuild]
    have hnone : (db.without i).builds.filter (fun b => decide (b.id = i)) = [] := by
      rw [List.filter_eq_nil_iff]
      intro b hb
      simp only [DB.without, List.mem_filter] at hb
      simpa using hb.2
    have hsame : (db.without i).without i = db.without i := by
      simp only [DB.without, List.filter_filter, Bool.and_self]
    rw [hnone, hsame]
    rfl

/-! ## Counts -/

theorem fromRows_orgJoin (db : DB) : fromRows db orgJoin = some (db.joined.map Row.ofPair) := by
  have hrows : db.builds.flatMap (fun b => db.repos.map (fun rp => (⟨b, some rp⟩ : Row))) =
      (db.builds.flatMap (fun b => db.repos.map (fun rp => (b, rp)))).map Row.ofPair := by
    rw [List.map_flatMap]
    congr 1
    funext b
    rw [List.map_map]
    rfl
  have hon : ∀ row ∈ (db.builds.flatMap (fun b => db.repos.map (fun rp => (b, rp)))).map
      Row.ofPair,
      (match row.col (colIn "repos" "id"), row.col (colIn "builds" "repo_id") with
        | some x, some y => some (decide (x = y))
        | _, _ => none) =
      some (match row.r with
        | some rp => decide (rp.id = row.b.repo_id)
        | none => false) := by
    intro row hrow
    obtain ⟨p, _, rfl⟩ := List.mem_map.1 hrow
    simp [Row.ofPair, Row.col, colIn, Build.col, Repo.col]
  simp only [fromRows, orgJoin, and_self, if_true, hrows]
  rw [filterRows_eq_filter _ _ _ hon, List.filter_map]
  rfl

/-- FROM and WHERE on the org join, for a condition that evaluates on every pair. -/
theorem matchingRows_orgJoin (q : Select) (db : DB) (args : List Val)
    (P : Build × Repo → Bool) (hf : q.frm = orgJoin)
    (hP : ∀ p : Build × Repo, evalWhere args q.wher (Row.ofPair p) = some (P p)) :
    matchingRows q db args = some ((db.joined.filter P).map Row.ofPair) := by
  have h : ∀ row ∈ db.joined.map Row.ofPair,
      evalWhere args q.wher row =
        some (match row.r with
          | some rp => P (row.b, rp)
          | none => false) := by
    intro row hrow
    obtain ⟨p, _, rfl⟩ := List.mem_map.1 hrow
    exact hP p
  simp only [matchingRows, hf, fromRows_orgJoin, Option.some_bind]
  rw [filterRows_eq_filter _ _ _ h, List.filter_map]
  rfl

/-- An ungrouped count without LIMIT and OFFSET: one row, the number of matching rows. -/
theorem run_count (q : Select) (db : DB) (args : List Val) (rows : List Row) (outName : String)
    (hs : q.sel = .countStar outName) (hl : q.limit = none) (ho : q.offset = none)
    (hm : matchingRows q db args = some rows) :
    q.run db args = some [[.int rows.length]] := by
  simp only [Select.run, hs, hm, hl, ho, windowArg, window, Option.bind_eq_bind,
    Option.some_bind]

set_option maxRecDepth 100000 in
theorem count_shapes :
    ∀ tpl ∈ countTemplates, shapeOf tpl = some (.countStar "count", none, none, none) := by
  decide

set_option maxRecDepth 100000 in
/-- The parser has no GROUP BY: a grouped count is not a statement of the fragment. -/
theorem grouped_count_rejected :
    parse "SELECT count(*) as count FROM builds GROUP BY status;" = none := by
  decide

theorem query_SelectBuildsCount (db : DB) :
    query SelectBuildsCount db [] = some [[.int db.builds.length]] := by
  simp only [query, parse_SelectBuildsCount, Option.some_bind]
  rw [run_count _ db [] _ "count" rfl rfl rfl
    (matchingRows_table _ db [] (fun _ => true) rfl (by intro b; rfl))]
  simp

theorem query_SelectBuildsCountByStatus (db : DB) (s : String) :
    query SelectBuildsCountByStatus db [.text s] =
      some [[.int (db.builds.filter (fun b => decide (b.status = s))).length]] := by
  simp only [query, parse_SelectBuildsCountByStatus, Option.some_bind]
  rw [run_count _ db _ _ "count" rfl rfl rfl
    (matchingRows_table _ db _ (fun b => decide (b.status = s)) rfl
      (by
        intro b
        simp [evalWhere, evalCond, evalConj, evalAtom, evalOperand, argAt, Row.col,
          Build.col, colOf, Row.ofBuild]))]
  simp

theorem query_SelectRepoBuildCount (db : DB) (r : Int) :
    query SelectRepoBuildCount db [.int r] =
      some [[.int (db.builds.filter (fun b => decide (b.repo_id = r))).length]] := by
  simp only [query, parse_SelectRepoBuildCount, Option.some_bind]
  rw [run_count _ db _ _ "count" rfl rfl rfl
    (matchingRows_table _ db _ (fun b => decide (b.repo_id = r)) rfl
      (by
        intro b
        simp [evalWhere, evalCond, evalConj, evalAtom, evalOperand, argAt, Row.col,
          Build.col, colOf, Row.ofBuild]))]
  simp

theorem query_SelectRepoBuildCountByEvent (db : DB) (r : Int) (e : String) :
    query SelectRepoBuildCountByEvent db [.int r, .text e] =
      some [[.int (db.builds.filter
        (fun b => decide (b.repo_id = r) && decide (b.event = e))).length]] := by
  simp only [query, parse_SelectRepoBuildCountByEvent, Option.some_bind]
  rw [run_count _ db _ _ "count" rfl rfl rfl
    (matchingRows_table _ db _ (fun b => decide (b.repo_id = r) && decide (b.event = e)) rfl
      (by
        intro b
        simp [evalWhere, evalCond, evalConj, evalAtom, evalOperand, argAt, Row.col,
          Build.col, colOf, Row.ofBuild]))]
  simp

theorem query_SelectOrgBuildCount (db : DB) (o : String) :
    query SelectOrgBuildCount db [.text o] =
      some [[.int (db.joined.filter (fun p => decide (p.2.org = o))).length]] := by
  simp only [query, parse_SelectOrgBuildCount, Option.some_bind]
  rw [run_count _ db _ _ "count" rfl rfl rfl
    (matchingRows_orgJoin _ db _ (fun p => decide (p.2.org = o)) rfl
      (by
        intro p
        simp [evalWhere, evalCond, evalConj, evalAtom, evalOperand, argAt, Row.col,
          Repo.col, colIn, Row.ofPair]))]
  simp

theorem query_SelectOrgBuildCountByEvent (db : DB) (o e : String) :
    query SelectOrgBuildCountByEvent db [.text o, .text e] =
      some [[.int (db.joined.filter
        (fun p => decide (p.2.org = o) && decide (p.1.event = e))).length]] := by
  simp only [query, parse_SelectOrgBuildCountByEvent, Option.some_bind]
  rw [run_count _ db _ _ "count" rfl rfl rfl
    (matchingRows_orgJoin _ db _ (fun p => decide (p.2.org = o) && decide (p.1.event = e)) rfl
      (by
        intro p
        simp [evalWhere, evalCond, evalConj, evalAtom, evalOperand, argAt, Row.col,
          Build.col, Repo.col, colIn, colOf, Row.ofPair]))]
  simp

/-- C7: every count template, as the registry serves it under its key, is a single `count(*) as count` with no ORDER BY, LIMIT or
OFFSET (and the fragment has no GROUP BY), and over any tables it returns exactly one
row with one value, the number of rows its filter matches: all builds for
select.count; the builds with the status, the repo_id, the repo_id and event for
countByStatus, countByRepo, countByRepoAndEvent; the joined build/repo pairs with the
org, the org and event for countByOrg, countByOrgAndEvent.  When no build has status
`s`, countByStatus returns the one row `0`, not an empty result. -/
theorem count_templates (db : DB) (s e o : String) (r : Int) :
    (∀ tpl ∈ countTemplates, shapeOf tpl = some (.countStar "count", none, none, none)) ∧
    query (createBuildService.Select.index "count") db [] = some [[.int db.builds.length]] ∧
    query (createBuildService.Select.index "countByStatus") db [.text s] =
      some [[.int (db.builds.filter (fun b => decide (b.status = s))).length]] ∧
    ((∀ b ∈ db.builds, b.status ≠ s) →
      query (createBuildService.Select.index "countByStatus") db [.text s] = some [[.int 0]]) ∧
    query (createBuildService.Select.index "countByRepo") db [.int r] =
      some [[.int (db.builds.filter (fun b => decide (b.repo_id = r))).length]] ∧
    query (createBuildService.Select.index "countByRepoAndEvent") db [.int r, .text e] =
      some [[.int (db.builds.filter
        (fun b => decide (b.repo_id = r) && decide (b.event = e))).length]] ∧
    query (createBuildService.Select.index "countByOrg") db [.text o] =
      some [[.int (db.joined.filter (fun p => decide (p.2.org = o))).length]] ∧
    query (createBuildService.Select.index "countByOrgAndEvent") db [.text o, .text e] =
      some [[.int (db.joined.filter
        (fun p => decide (p.2.org = o) && decide (p.1.event = e))).length]] := by
  rw [served_select_count, served_select_countByStatus, served_select_countByRepo,
    served_select_countByRepoAndEvent, served_select_countByOrg,
    served_select_countByOrgAndEvent]
  refine ⟨count_shapes, query_SelectBuildsCount db, query_SelectBuildsCountByStatus db s, ?_,
    query_SelectRepoBuildCount db r, query_SelectRepoBuildCountByEvent db r e,
    query_SelectOrgBuildCount db o, query_SelectOrgBuildCountByEvent db o e⟩
  intro hnone
  have hfil : db.builds.filter (fun b => decide (b.status = s)) = [] := by
    rw [List.filter_eq_nil_iff]
    intro b hb
    simpa using hnone b hb
  rw [query_SelectBuildsCountByStatus, hfil]
  rfl

/-! ## ORDER BY gives sorted rows -/

theorem valLe_total (a b : Val) : Val.le a b = true ∨ Val.le b a = true := by
  cases a with
  | int x =>
    cases b with
    | int y =>
      simp only [Val.le, Val.gt, Bool.not_eq_true', decide_eq_false_iff_not, not_lt]
      exact le_total x y
    | text t => simp [Val.le, Val.gt]
  | text s =>
    cases b with
    | int y => simp [Val.le, Val.gt]
    | text t =>
      simp only [Val.le, Val.gt, Bool.not_eq_true', decide_eq_false_iff_not, gt_iff_lt, not_lt]
      exact le_total s t

theorem valLe_trans (a b c : Val) (h1 : Val.le a b = true) (h2 : Val.le b c = true) :
    Val.le a c = true := by
  cases a <;> cases b <;> cases c <;>
    simp only [Val.le, Val.gt, Bool.not_eq_true', decide_eq_false_iff_not, gt_iff_lt, not_lt,
      Bool.not_false, Bool.not_true, Bool.false_eq_true] at h1 h2 ⊢
  · exact le_trans h1 h2
  · exact le_trans h1 h2

theorem window_sublist {α : Type} (l o : Option Int) (xs : List α) :
    (window l o xs).Sublist xs := by
  cases l <;> cases o <;> simp only [window]
  · exact List.Sublist.refl _
  · exact List.drop_sublist _ _
  · split
    · exact List.Sublist.refl _
    · exact List.take_sublist _ _
  · split
    · exact List.drop_sublist _ _
    · exact (List.take_sublist _ _).trans (List.drop_sublist _ _)

/-- The rows of a statement with `ORDER BY c DESC` are descending in `c`. -/
theorem rows_sorted_desc (q : Select) (db : DB) (args : List Val) (rows : List Row) (c : Col)
    (ho : q.orderBy = some (c, .desc)) (h : q.rows db args = some rows) :
    rows.Sorted (fun a b => Val.le (b.key c) (a.key c) = true) := by
  simp only [Select.rows, ho, orderRows, Option.bind_eq_bind, Option.bind_eq_some,
    Option.some.injEq] at h
  obtain ⟨m, _, s, hs, l, _, o, _, hw⟩ := h
  subst hw
  split at hs
  · simp only [Option.some.injEq] at hs
    subst hs
    exact (@List.sorted_insertionSort Row (fun a b => Val.le (b.key c) (a.key c) = true) _
      ⟨fun a b => valLe_total (b.key c) (a.key c)⟩
      ⟨fun x y z h1 h2 => valLe_trans (z.key c) (y.key c) (x.key c) h2 h1⟩ m).sublist
      (window_sublist l o _)
  · exact absurd hs (by simp)

/-! ## The pending-and-running condition -/

/-- The WHERE condition of the pending-and-running template on a joined row, for a
timestamp `t`: `(created > t AND status = 'running') OR status = 'pending'`. -/
theorem pendingAndRunning_where (t : Int) (b : Build) (rp : Repo) :
    whereAccepts SelectPendingAndRunningBuilds [.int t] b rp =
      some (decide ((b.created > t ∧ b.status = "running") ∨ b.status = "pending")) := by
  simp [whereAccepts, parse_SelectPendingAndRunningBuilds, evalWhere, evalCond, evalConj,
    evalAtom, evalOperand, argAt, Row.col, Build.col, colIn, Val.gt]

set_option maxRecDepth 100000 in
/-- C3 at the failing input: for the timestamp 100, the WHERE condition of
select.pendingAndRunning accepts a pending build created at 50, and the query returns
its row. -/
theorem pendingAndRunning_accepts_stale_pending :
    staleBuild.created ≤ 100 ∧
    whereAccepts SelectPendingAndRunningBuilds [.int 100] staleBuild acmeRepo = some true ∧
    query SelectPendingAndRunningBuilds ⟨[staleBuild], [acmeRepo]⟩ [.int 100] =
      some [[.int 50, .int 1, .text "pending", .text "acme/a"]] := by
  decide

/-! ## ORDER BY clauses -/

set_option maxRecDepth 100000 in
/-- C5, as stated, fails: list.repo orders by `id`, not by `number`, and list.all has no
ORDER BY clause at all. -/
theorem listRepo_orders_by_id_and_listAll_unordered :
    orderClause (createBuildService.List.index "repo") = some (some (colOf "id", .desc)) ∧
    orderClause (createBuildService.List.index "repo") ≠ some (some (colOf "number", .desc)) ∧
    orderClause (createBuildService.List.index "all") = some none ∧
    orderClause (createBuildService.List.index "all") ≠ some (some (colOf "id", .desc)) := by
  decide

set_option maxRecDepth 100000 in
/-- C5, amended: list.repoByEvent, select.last and select.lastByBranch order by `number`
descending; list.repo, list.org and list.orgByEvent order by `id` descending; list.all
has no ORDER BY clause. -/
theorem order_clauses :
    orderClause (createBuildService.List.index "repoByEvent") =
      some (some (colOf "number", .desc)) ∧
    orderClause (createBuildService.Select.index "last") =
      some (some (colOf "number", .desc)) ∧
    orderClause (createBuildService.Select.index "lastByBranch") =
      some (some (colOf "number", .desc)) ∧
    orderClause (createBuildService.List.index "repo") = some (some (colOf "id", .desc)) ∧
    orderClause (createBuildService.List.index "org") = some (some (colOf "id", .desc)) ∧
    orderClause (createBuildService.List.index "orgByEvent") =
      some (some (colOf "id", .desc)) ∧
    orderClause (createBuildService.List.index "all") = some none := by
  decide

/-! ## Instances of the conditional theorems on the fixture -/

set_option maxRecDepth 100000 in
/-- Witness for C6 on the fixture: repo 1, limit 2, offset 1, two pages. -/
theorem listRepo_pagination_witness :
    (fixture.builds.map Build.id).Nodup ∧ (0 : Int) ≤ 2 ∧ (0 : Int) ≤ 1 ∧
      (∃ page : List Build,
        queryBuilds (createBuildService.List.index "repo") fixture [.int 1, .int 2, .int 1] = some page ∧
          (page.length : Int) = max 0 (min 2 ((repoBuildCount fixture 1 : Int) - 1))) ∧
      (List.range 2).flatMap
          (fun i => (queryBuilds (createBuildService.List.index "repo") fixture [.int 1, .int 2, .int (i * 2)]).getD []) =
        repoBuildsDesc fixture 1 :=
  ⟨by decide, by decide, by decide,
    (listRepo_pagination fixture 1 2 1 2 (by decide) (by decide) (by decide)).elim
      (fun page h => ⟨page, h.1, h.2.1⟩),
    (listRepo_pagination fixture 1 2 1 2 (by decide) (by decide) (by decide)).elim
      (fun _ h => h.2.2.2.2.2.1 (by decide) (by decide))⟩

set_option maxRecDepth 100000 in
/-- Witness for C8 on the fixture: deleting build 11. -/
theorem delete_build_idempotent_witness :
    (fixture.builds.map Build.id).Nodup ∧
      ∃ db' n, exec createBuildService.Delete fixture [.int 11] = some (db', n) ∧
        exec createBuildService.Delete db' [.int 11] = some (db', 0) :=
  ⟨by decide,
    (delete_build_idempotent fixture 11 (by decide)).elim
      (fun db' h => h.elim (fun n hn => ⟨db', n, hn.1, hn.2.2.2.2⟩))⟩

set_option maxRecDepth 100000 in
/-- Witness for C7 on the fixture: no build has status `error`, and the count is the
one row `0`. -/
theorem count_templates_witness :
    (∀ b ∈ fixture.builds, b.status ≠ "error") ∧
      query (createBuildService.Select.index "countByStatus") fixture [.text "error"] = some [[.int 0]] :=
  ⟨by decide, (count_templates fixture "error" "push" "acme" 1).2.2.2.1 (by decide)⟩

end Sqlite
